import Mathlib

/-!
Verification of the core components of the trix-hub display hub:

* `trixhub/conditions.py` — calendar-based condition evaluation,
* `trixhub/providers/base.py` — the TTL-cached data provider,
* `trixhub/gtfs/gtfs_manager.py` — the scheduled/realtime arrival merge and
  the on-disk static-schedule cache,
* `trixhub/schedulers/time_windowed.py` and `trixhub/schedulers/base.py` /
  `simple_rotation.py` — time-window selection and the rotation loops.

The Python code is embedded shallowly: every function below transcribes the
control flow of the corresponding Python function; wall-clock instants are
integers (epoch seconds), clock times are minutes since midnight, and Python
dictionaries become structures.  Python string comparison and digit parsing
are modelled on the underlying character lists because the built-in `String`
order does not reduce in the kernel.
-/

namespace TrixHub

/-! ### Python string primitives

Python compares strings lexicographically by code point.  `pyStrLe` models
`s <= t`; `splitCharAux` models `str.split(sep)` for a one-character
separator; `parseNatChars` models `int(s)` restricted to ASCII digit strings
(the only inputs the configuration format produces — all other inputs raise
`ValueError` in Python and yield `none` here).
-/

/-- Python string strict comparison `s < t` on character lists. -/
def pyStrLt : List Char → List Char → Bool
  | [], [] => false
  | [], _ :: _ => true
  | _ :: _, [] => false
  | c :: cs, d :: ds => if c < d then true else if d < c then false else pyStrLt cs ds

/-- Python string comparison `s <= t` on character lists. -/
def pyStrLeAux : List Char → List Char → Bool
  | [], _ => true
  | _ :: _, [] => false
  | c :: cs, d :: ds => if c < d then true else if d < c then false else pyStrLeAux cs ds

/-- Python `s <= t` for strings. -/
def pyStrLe (s t : String) : Bool := pyStrLeAux s.data t.data

/-- Helper for `str.split(sep)`: accumulates the current field (reversed). -/
def splitCharAux (sep : Char) : List Char → List Char → List (List Char)
  | [], acc => [acc.reverse]
  | c :: cs, acc =>
    if c = sep then acc.reverse :: splitCharAux sep cs []
    else splitCharAux sep cs (c :: acc)

/-- Python `s.split(sep)` for a single-character separator. -/
def pySplit (sep : Char) (s : String) : List (List Char) := splitCharAux sep s.data []

/-- Python `int(s)` on an ASCII digit string; `none` models `ValueError`. -/
def parseNatChars (cs : List Char) : Option Nat :=
  if cs = [] then none
  else if cs.all (fun c => c.isDigit) then
    some (cs.foldl (fun n c => 10 * n + (c.toNat - 48)) 0)
  else none

/-! ### `trixhub/conditions.py` — `ConditionEvaluator`

The calendar facts a condition reads are `now.strftime("%m-%d")`,
`now.weekday()` (Python convention, 0 = Monday) and `now.month`.
A condition kind whose configured value is missing or falsy (empty list,
wrong length) is "not configured" and its check returns `none`, exactly as
the Python checks return `None`.
-/

/-- The calendar facts read by `ConditionEvaluator` at evaluation time. -/
structure CalendarState where
  /-- `now.strftime("%m-%d")`, e.g. `"12-25"`. -/
  today : String
  /-- `now.weekday()`: Python convention, 0 = Monday .. 6 = Sunday. -/
  pyWeekday : Nat
  /-- `now.month`: 1 .. 12. -/
  month : Nat
deriving DecidableEq, Repr

/-- The four recognized keys of a conditions dictionary.  A missing key is
`none`; a key present with a falsy value (empty list) behaves identically to
a missing key in every check, so both are representable. -/
structure ConditionSet where
  date_match : Option (List String) := none
  date_range : Option (List String) := none
  day_of_week : Option (List Nat) := none
  months : Option (List Nat) := none
deriving DecidableEq, Repr

/-- `ConditionEvaluator._check_date_match`. -/
def checkDateMatch (cs : ConditionSet) (cal : CalendarState) : Option Bool :=
  match cs.date_match with
  | none => none
  | some [] => none
  | some dates => some (dates.contains cal.today)

/-- `ConditionEvaluator._check_date_range`: `none` unless the configured
value is a two-element list; lexicographic comparison with midnight-of-year
wraparound when `start > end`. -/
def checkDateRange (cs : ConditionSet) (cal : CalendarState) : Option Bool :=
  match cs.date_range with
  | some [s, e] =>
    if pyStrLe s e then some (pyStrLe s cal.today && pyStrLe cal.today e)
    else some (pyStrLe s cal.today || pyStrLe cal.today e)
  | _ => none

/-- `ConditionEvaluator._check_day_of_week`: the configured numbering is
0 = Sunday .. 6 = Saturday, so the Python weekday is shifted by one. -/
def checkDayOfWeek (cs : ConditionSet) (cal : CalendarState) : Option Bool :=
  match cs.day_of_week with
  | none => none
  | some [] => none
  | some days => some (days.contains ((cal.pyWeekday + 1) % 7))

/-- `ConditionEvaluator._check_months`. -/
def checkMonths (cs : ConditionSet) (cal : CalendarState) : Option Bool :=
  match cs.months with
  | none => none
  | some [] => none
  | some ms => some (ms.contains cal.month)

/-- `ConditionEvaluator.should_run`: AND over the configured checks; checks
returning `None` are skipped.  (The early `return True` for an empty
conditions dictionary coincides with the general path, on which every check
returns `None`.) -/
def shouldRun (cs : ConditionSet) (cal : CalendarState) : Bool :=
  (([checkDateMatch cs cal, checkDateRange cs cal,
     checkDayOfWeek cs cal, checkMonths cs cal]).filterMap id).all (fun b => b)

/-! ### `trixhub/providers/base.py` — `DataProvider.get_data`

The provider is state (`self._cache`, `self._cache_expires`) plus a
subclass-supplied `fetch_data`.  In the pure embedding `getData` takes the
current state, the cache duration in seconds (`get_cache_duration`), the
`DisplayData` value that `fetch_data` would return if invoked, the
`force_refresh` flag, and the current instant; it returns the data, the new
state, and whether `fetch_data` was invoked.  Both `DisplayData` and
`datetime` values are always truthy in Python, so the guard
`self._cache and self._cache_expires` is exactly "both fields are not None".
-/

/-- `DisplayData`: timestamp plus ordered string-keyed payloads. -/
structure DisplayData where
  timestamp : Int
  content : List (String × String)
  metadata : List (String × String) := []
deriving DecidableEq, Repr

/-- The mutable fields of a `DataProvider` instance. -/
structure ProviderState where
  cache : Option DisplayData := none
  cacheExpires : Option Int := none
deriving DecidableEq, Repr

/-- The observable outcome of one `get_data` call. -/
structure GetDataResult where
  data : DisplayData
  state : ProviderState
  fetched : Bool
deriving DecidableEq, Repr

/-- `DataProvider.get_data`, transcribed.  `fetchResult` is the value
`self.fetch_data()` returns when it is invoked. -/
def getData (st : ProviderState) (cacheDuration : Int) (fetchResult : DisplayData)
    (forceRefresh : Bool) (now : Int) : GetDataResult :=
  let hit : Option DisplayData :=
    if !forceRefresh then
      match st.cache, st.cacheExpires with
      | some c, some e => if now < e then some c else none
      | _, _ => none
    else none
  match hit with
  | some c => { data := c, state := st, fetched := false }
  | none =>
    if cacheDuration > 0 then
      { data := fetchResult
        state := { cache := some fetchResult, cacheExpires := some (now + cacheDuration) }
        fetched := true }
    else
      { data := fetchResult, state := st, fetched := true }

/-- `DataProvider.clear_cache`. -/
def clearCache (_ : ProviderState) : ProviderState :=
  { cache := none, cacheExpires := none }

/-! ### `trixhub/gtfs/gtfs_manager.py` — the arrival merge

Arrival dictionaries become the `Arrival` structure (scheduled rows and
merged records share the shape); realtime feed records, which carry only
trip id, optional route id and an arrival timestamp, become `RTArrival`.
Times are epoch seconds.  Python dictionaries produced by the code never
hold a `minutes_until` key until step 7 of the merge writes it, so the field
defaults to `0` in the embedding.  `_get_trip_info` (a static-feed lookup
that may raise, in which case the synthesized record is silently dropped) is
a parameter `tripInfo`; `none` models the raising case, and a returned
`TripInfo` carries the already-defaulted display fields.
-/

/-- One arrival record as built by `get_scheduled_arrivals` and
`get_merged_arrivals`. -/
structure Arrival where
  route_short_name : String
  route_id : String
  trip_id : String
  direction : String
  headsign : String
  /-- Epoch seconds. -/
  arrival_time : Int
  /-- Origin tag: `"SC"` scheduled or `"TT"` realtime. -/
  type : String
  minutes_until : Int := 0
deriving DecidableEq, Repr

/-- One realtime record as built by `get_realtime_arrivals`:
`route_id` is `None` when the feed omits it. -/
structure RTArrival where
  trip_id : String
  route_id : Option String
  arrival_time : Int
deriving DecidableEq, Repr

/-- Display fields returned by a successful `_get_trip_info` lookup. -/
structure TripInfo where
  route_short_name : String
  direction : String
  headsign : String
deriving DecidableEq, Repr

/-- The lookup into `realtime_map = {a["trip_id"]: a for a in realtime}`:
a Python dict comprehension lets later entries overwrite earlier ones, so
the lookup yields the last realtime record with the given trip id. -/
def realtimeLookup (realtime : List RTArrival) (t : String) : Option RTArrival :=
  realtime.foldl (fun acc a => if a.trip_id = t then some a else acc) none

/-- The record emitted for a scheduled arrival with a realtime counterpart:
realtime arrival time, scheduled display metadata, tag `"TT"`. -/
def mergedRecord (a : Arrival) (rt : RTArrival) : Arrival :=
  { route_short_name := a.route_short_name
    route_id := a.route_id
    direction := a.direction
    headsign := a.headsign
    arrival_time := rt.arrival_time
    type := "TT"
    trip_id := a.trip_id }

/-- The per-scheduled-arrival merge rule (`get_merged_arrivals`, scheduled
loop): a realtime counterpart contributes its arrival time while the
scheduled record contributes the display metadata, and the record is tagged
`"TT"`; with no counterpart the scheduled record is emitted unchanged. -/
def mergeScheduledArrival (realtime : List RTArrival) (a : Arrival) : Arrival :=
  match realtimeLookup realtime a.trip_id with
  | some rt => mergedRecord a rt
  | none => a

/-- The extra records for realtime arrivals absent from the scheduled list
(`get_merged_arrivals`, second loop).  A `tripInfo` failure (`none`, the
raising case in Python) drops that single record.  `route_id.getD "?"`
stands for `rt.get("route_id", "?")` collapsed over the stored-None case,
which no claim observes. -/
def mergedExtras (scheduled : List Arrival) (realtime : List RTArrival)
    (tripInfo : String → Option TripInfo) : List Arrival :=
  let scheduledTripIds := scheduled.map (fun a => a.trip_id)
  realtime.filterMap (fun rt =>
    if scheduledTripIds.contains rt.trip_id then none
    else
      match tripInfo rt.trip_id with
      | none => none
      | some ti =>
        some { route_short_name := ti.route_short_name
               route_id := rt.route_id.getD "?"
               direction := ti.direction
               headsign := ti.headsign
               arrival_time := rt.arrival_time
               type := "TT"
               trip_id := rt.trip_id })

/-- The merged list as it stands after the two merge loops of
`get_merged_arrivals`, before the window filter. -/
def mergedBeforeWindowFilter (scheduled : List Arrival) (realtime : List RTArrival)
    (tripInfo : String → Option TripInfo) : List Arrival :=
  scheduled.map (mergeScheduledArrival realtime) ++ mergedExtras scheduled realtime tripInfo

/-- Ordering by arrival time, the sort key of `merged.sort`. -/
def arrivalLe (a b : Arrival) : Prop := a.arrival_time ≤ b.arrival_time

instance : DecidableRel arrivalLe :=
  fun a b => inferInstanceAs (Decidable (a.arrival_time ≤ b.arrival_time))

instance : IsTotal Arrival arrivalLe := ⟨fun a b => Int.le_total a.arrival_time b.arrival_time⟩

instance : IsTrans Arrival arrivalLe := ⟨fun _ _ _ h1 h2 => le_trans h1 h2⟩

/-- `GTFSManager.get_merged_arrivals`, transcribed: merge, filter to
`[now, now + window_minutes]`, sort ascending by arrival time, then write
`minutes_until` (Python `int()` truncates toward zero, `Int.tdiv`). -/
def getMergedArrivals (now : Int) (window_minutes : Int)
    (scheduled : List Arrival) (realtime : List RTArrival)
    (tripInfo : String → Option TripInfo) : List Arrival :=
  let merged := mergedBeforeWindowFilter scheduled realtime tripInfo
  let cutoff := now + window_minutes * 60
  let filtered := merged.filter (fun a => decide (now ≤ a.arrival_time) && decide (a.arrival_time ≤ cutoff))
  let sorted := List.insertionSort arrivalLe filtered
  sorted.map (fun a => { a with minutes_until := max 0 (Int.tdiv (a.arrival_time - now) 60) })

/-! ### `trixhub/schedulers/time_windowed.py` — window selection

`_parse_time` logs and returns `0` on any parse failure; `parseTimeOpt`
separates the failing case so theorems can talk about it.  Configuration
values read with `dict.get` are `Option String`; Python truthiness of a
string (`if start and end:`) is "present and non-empty".
-/

/-- The `HH:MM` parse of `_parse_time`, with `none` for the raising paths
(wrong field count, non-numeric part, hours or minutes out of range). -/
def parseTimeOpt (s : String) : Option Nat :=
  match pySplit ':' s with
  | [h, m] =>
    match parseNatChars h, parseNatChars m with
    | some hours, some minutes =>
      if hours ≤ 23 && minutes ≤ 59 then some (hours * 60 + minutes) else none
    | _, _ => none
  | _ => none

/-- `TimeWindowedScheduler._parse_time`: minutes since midnight, `0` on any
error (the `except` branch logs and returns `0`). -/
def parseTime (s : String) : Nat := (parseTimeOpt s).getD 0

/-- `TimeWindowedScheduler._is_time_in_window`: half-open window with
midnight wraparound when `start > end`. -/
def isTimeInWindow (current_minutes : Nat) (startStr endStr : String) : Bool :=
  let start_min := parseTime startStr
  let end_min := parseTime endStr
  if start_min ≤ end_min then
    decide (start_min ≤ current_minutes) && decide (current_minutes < end_min)
  else
    decide (current_minutes ≥ start_min) || decide (current_minutes < end_min)

/-- A `time_window` configuration value; missing keys are `none`. -/
structure TimeWindow where
  start : Option String := none
  «end» : Option String := none
deriving DecidableEq, Repr

/-- One configured rotation window. -/
structure Rotation where
  name : String
  time_window : TimeWindow := {}
  /-- An absent or empty conditions dictionary is the all-`none` set. -/
  conditions : ConditionSet := {}
  blank_screen : Bool := false
  providers : List String := []
deriving DecidableEq, Repr

/-- Python truthiness of an optional string: present and non-empty. -/
def isTruthyStr : Option String → Bool
  | none => false
  | some s => !(s == "")

/-- `TimeWindowedScheduler._check_rotation_conditions`: an absent or falsy
conditions value passes; otherwise `ConditionEvaluator.should_run`. -/
def checkRotationConditions (r : Rotation) (cal : CalendarState) : Bool :=
  shouldRun r.conditions cal

/-- `TimeWindowedScheduler._get_active_rotation`, transcribed: walk the
configured rotations in order; a rotation is considered only when both
window bounds are truthy; on a time match the conditions are checked; the
first rotation passing both is returned, and the fallback otherwise. -/
def getActiveRotation (cal : CalendarState) (current_minutes : Nat)
    (fallback : Rotation) : List Rotation → Rotation
  | [] => fallback
  | r :: rest =>
    if isTruthyStr r.time_window.start && isTruthyStr r.time_window.«end» then
      if isTimeInWindow current_minutes (r.time_window.start.getD "") (r.time_window.«end».getD "") then
        if checkRotationConditions r cal then r
        else getActiveRotation cal current_minutes fallback rest
      else getActiveRotation cal current_minutes fallback rest
    else getActiveRotation cal current_minutes fallback rest

/-- The selection predicate: time-window match AND conditions pass. -/
def rotationActive (r : Rotation) (current_minutes : Nat) (cal : CalendarState) : Bool :=
  isTruthyStr r.time_window.start && isTruthyStr r.time_window.«end» &&
    isTimeInWindow current_minutes (r.time_window.start.getD "") (r.time_window.«end».getD "") &&
    checkRotationConditions r cal

/-! ### `GTFSManager._get_pickle_path` — the static-schedule disk cache

A cache file is its filename-encoded expiry instant; `none` models a
filename that does not parse (the `ValueError` branch, which skips the
file).  The function walks the directory listing in order, deletes expired
files it encounters, and returns as soon as it sees an unexpired one; the
result pairs the found file with the directory contents after the walk.
(Deletion is assumed to succeed; the `OSError` branch is not modelled.)
-/

/-- One file of the pickle cache directory, reduced to its parsed
filename-encoded expiry (`none` for an unparseable filename). -/
structure CacheFile where
  expiry : Option Int
deriving DecidableEq, Repr

/-- `GTFSManager._get_pickle_path`, transcribed over the directory listing:
returns the reused file (if any) and the listing after deletions. -/
def getPicklePath (now : Int) : List CacheFile → Option CacheFile × List CacheFile
  | [] => (none, [])
  | f :: rest =>
    match f.expiry with
    | none =>
      let r := getPicklePath now rest
      (r.1, f :: r.2)
    | some e =>
      if now < e then (some f, f :: rest)
      else getPicklePath now rest

/-! ### The rotation loops — `BaseScheduler._display_provider`,
`SimpleRotationScheduler.run`, `TimeWindowedScheduler._run_rotation`

`_display_provider` wraps fetch + render + post in one `try`: the `except`
branch logs, sleeps a fixed 2 seconds and returns `False`; an uninitialized
provider name returns `False` with no backoff.  The loops run single
threaded with no shutdown request, so the shutdown checks never fire; the
fetch-and-render outcome of a provider is a parameter
(`Except`, with `Except.error` modelling a raised exception).
-/

/-- The observable outcome of one `_display_provider` call. -/
structure DisplayOutcome where
  success : Bool
  /-- Seconds slept in the `except` branch before returning. -/
  backoffSeconds : Nat
deriving DecidableEq, Repr

/-- `BaseScheduler._display_provider`, transcribed: uninitialized providers
are skipped; a raised exception is caught, logged, and answered with a fixed
2-second backoff and `False`; success displays and returns `True`. -/
def displayProvider (initialized : Bool) (step : Except String DisplayData) : DisplayOutcome :=
  if !initialized then { success := false, backoffSeconds := 0 }
  else
    match step with
    | Except.ok _ => { success := true, backoffSeconds := 0 }
    | Except.error _ => { success := false, backoffSeconds := 2 }

/-- One pass of the `for provider_entry in self.provider_rotation:` body of
`SimpleRotationScheduler.run`: every entry is displayed in order, no branch
leaves the loop on failure. -/
def runRotationPass (initialized : String → Bool)
    (behavior : String → Except String DisplayData) (entries : List String) : List DisplayOutcome :=
  entries.map (fun name => displayProvider (initialized name) (behavior name))

/-- `SimpleRotationScheduler.run` truncated to a given number of cycles of
its `while` loop (the loop itself never exits without a shutdown request). -/
def runSimpleCycles (initialized : String → Bool)
    (behavior : String → Except String DisplayData) (entries : List String) : Nat → List DisplayOutcome
  | 0 => []
  | n + 1 =>
    runRotationPass initialized behavior entries ++ runSimpleCycles initialized behavior entries n

/-- `TimeWindowedScheduler._run_rotation`, transcribed: entries are
displayed in order; before each entry the rotation-switch check may abandon
the remainder (`shouldSwitch i` is `_should_switch_rotation` at the i-th
entry); a provider failure never leaves the loop. -/
def runRotationTW (shouldSwitch : Nat → Bool) (initialized : String → Bool)
    (behavior : String → Except String DisplayData) : List String → Nat → List DisplayOutcome
  | [], _ => []
  | name :: rest, i =>
    if shouldSwitch i then []
    else displayProvider (initialized name) (behavior name) ::
      runRotationTW shouldSwitch initialized behavior rest (i + 1)

/-! ## Theorems -/

/-! ### Helper lemmas on the realtime lookup -/

/-- Unfolding lemma for the `realtimeLookup` fold: a `some` result is the
accumulator or a matching list member. -/
theorem realtimeLookup_foldl_some {t : String} {rt : RTArrival} :
    ∀ (rts : List RTArrival) (acc : Option RTArrival),
      rts.foldl (fun acc a => if a.trip_id = t then some a else acc) acc = some rt →
      acc = some rt ∨ (rt ∈ rts ∧ rt.trip_id = t) := by
  intro rts
  induction rts with
  | nil => intro acc h; exact Or.inl h
  | cons a rest ih =>
    intro acc h
    simp only [List.foldl_cons] at h
    rcases ih _ h with h2 | h2
    · by_cases ha : a.trip_id = t
      · rw [if_pos ha] at h2
        obtain rfl := Option.some.inj h2
        exact Or.inr ⟨List.mem_cons_self a rest, ha⟩
      · rw [if_neg ha] at h2
        exact Or.inl h2
    · exact Or.inr ⟨List.mem_cons_of_mem a h2.1, h2.2⟩

/-- Unfolding lemma for the `realtimeLookup` fold: the result is `none` iff
the accumulator is `none` and no list member matches. -/
theorem realtimeLookup_foldl_none {t : String} :
    ∀ (rts : List RTArrival) (acc : Option RTArrival),
      rts.foldl (fun acc a => if a.trip_id = t then some a else acc) acc = none ↔
        (acc = none ∧ ∀ a ∈ rts, a.trip_id ≠ t) := by
  intro rts
  induction rts with
  | nil => intro acc; simp
  | cons a rest ih =>
    intro acc
    simp only [List.foldl_cons, ih]
    constructor
    · rintro ⟨h1, h2⟩
      by_cases ha : a.trip_id = t
      · rw [if_pos ha] at h1; exact absurd h1 (by simp)
      · rw [if_neg ha] at h1
        exact ⟨h1, by
          intro b hb
          rcases List.mem_cons.mp hb with rfl | hb
          · exact ha
          · exact h2 b hb⟩
    · rintro ⟨h1, h2⟩
      refine ⟨?_, fun b hb => h2 b (List.mem_cons_of_mem a hb)⟩
      rw [if_neg (h2 a (List.mem_cons_self a rest))]
      exact h1

/-- A `some` result of `realtimeLookup` is a matching member of the list. -/
theorem realtimeLookup_some_mem {realtime : List RTArrival} {t : String} {rt : RTArrival}
    (h : realtimeLookup realtime t = some rt) : rt ∈ realtime ∧ rt.trip_id = t := by
  rcases realtimeLookup_foldl_some realtime none h with h2 | h2
  · exact absurd h2 (by simp)
  · exact h2

/-- `realtimeLookup` misses exactly when no realtime record matches. -/
theorem realtimeLookup_eq_none {realtime : List RTArrival} {t : String} :
    realtimeLookup realtime t = none ↔ ∀ a ∈ realtime, a.trip_id ≠ t := by
  unfold realtimeLookup
  rw [realtimeLookup_foldl_none]
  simp

/-! ### Claim C1 — realtime precedence in the merge -/

/-- Claim C1: in `get_merged_arrivals`, for every scheduled arrival whose
trip id appears in the realtime list, the merged list (as built by the merge
loops, before the window filter) contains a record whose arrival time is the
realtime one, whose display metadata (route short name, route id, direction,
headsign) is the scheduled one, and whose origin tag is `"TT"`; a scheduled
arrival with no realtime counterpart is contained unchanged (hence keeping
its `"SC"` tag).  The lookup hits `some` exactly when the trip id appears in
the realtime list. -/
theorem mergedArrivals_realtime_precedence (scheduled : List Arrival)
    (realtime : List RTArrival) (tripInfo : String → Option TripInfo)
    (a : Arrival) (ha : a ∈ scheduled) :
    (∀ rt, realtimeLookup realtime a.trip_id = some rt →
        rt ∈ realtime ∧ rt.trip_id = a.trip_id ∧
        mergedRecord a rt ∈ mergedBeforeWindowFilter scheduled realtime tripInfo ∧
        (mergedRecord a rt).arrival_time = rt.arrival_time ∧
        (mergedRecord a rt).route_short_name = a.route_short_name ∧
        (mergedRecord a rt).route_id = a.route_id ∧
        (mergedRecord a rt).direction = a.direction ∧
        (mergedRecord a rt).headsign = a.headsign ∧
        (mergedRecord a rt).trip_id = a.trip_id ∧
        (mergedRecord a rt).type = "TT")
    ∧ (realtimeLookup realtime a.trip_id = none ↔ ∀ rt ∈ realtime, rt.trip_id ≠ a.trip_id)
    ∧ (realtimeLookup realtime a.trip_id = none →
        a ∈ mergedBeforeWindowFilter scheduled realtime tripInfo) := by
  refine ⟨?_, realtimeLookup_eq_none, ?_⟩
  · intro rt h
    obtain ⟨hmem, htid⟩ := realtimeLookup_some_mem h
    refine ⟨hmem, htid, ?_, rfl, rfl, rfl, rfl, rfl, rfl, rfl⟩
    have hrec : mergeScheduledArrival realtime a = mergedRecord a rt := by
      unfold mergeScheduledArrival
      rw [h]
    unfold mergedBeforeWindowFilter
    exact List.mem_append_left _ (hrec ▸ List.mem_map_of_mem (mergeScheduledArrival realtime) ha)
  · intro h
    have hrec : mergeScheduledArrival realtime a = a := by
      unfold mergeScheduledArrival
      rw [h]
    unfold mergedBeforeWindowFilter
    exact List.mem_append_left _ (hrec ▸ List.mem_map_of_mem (mergeScheduledArrival realtime) ha)

/-- Witness for C1 at concrete inputs: one scheduled arrival with a realtime
counterpart yields the combined `"TT"` record in the merged list, and with
an empty realtime list the scheduled record itself is in the merged list. -/
theorem mergedArrivals_realtime_precedence_witness :
    mergedRecord ⟨"61", "61", "t1", "IB", "Downtown", 120, "SC", 0⟩ ⟨"t1", some "61", 300⟩
        ∈ mergedBeforeWindowFilter [⟨"61", "61", "t1", "IB", "Downtown", 120, "SC", 0⟩]
            [⟨"t1", some "61", 300⟩] (fun _ => none)
    ∧ (mergedRecord ⟨"61", "61", "t1", "IB", "Downtown", 120, "SC", 0⟩ ⟨"t1", some "61", 300⟩).arrival_time = 300
    ∧ (mergedRecord ⟨"61", "61", "t1", "IB", "Downtown", 120, "SC", 0⟩ ⟨"t1", some "61", 300⟩).type = "TT"
    ∧ (⟨"61", "61", "t1", "IB", "Downtown", 120, "SC", 0⟩ : Arrival)
        ∈ mergedBeforeWindowFilter [⟨"61", "61", "t1", "IB", "Downtown", 120, "SC", 0⟩]
            [] (fun _ => none) :=
  ⟨((mergedArrivals_realtime_precedence [⟨"61", "61", "t1", "IB", "Downtown", 120, "SC", 0⟩]
      [⟨"t1", some "61", 300⟩] (fun _ => none) ⟨"61", "61", "t1", "IB", "Downtown", 120, "SC", 0⟩
      (by simp)).1 ⟨"t1", some "61", 300⟩ rfl).2.2.1,
   rfl, rfl,
   (mergedArrivals_realtime_precedence [⟨"61", "61", "t1", "IB", "Downtown", 120, "SC", 0⟩]
      [] (fun _ => none) ⟨"61", "61", "t1", "IB", "Downtown", 120, "SC", 0⟩
      (by simp)).2.2 rfl⟩

/-! ### Claim C2 — TTL cache of `DataProvider.get_data` -/

/-- Claim C2: with a live (non-expired) cache entry and `force_refresh`
false, `get_data` answers the cached value itself, fetches nothing and
leaves the state untouched; with `force_refresh` true it always fetches;
with cache duration 0 nothing is ever stored (the state is returned
unchanged), so from an empty cache every call fetches. -/
theorem getData_cached_semantics (st : ProviderState) (dur : Int)
    (f : DisplayData) (now : Int) :
    (∀ c e, 0 < dur → st.cache = some c → st.cacheExpires = some e → now < e →
        getData st dur f false now = { data := c, state := st, fetched := false })
    ∧ (getData st dur f true now).fetched = true
    ∧ (dur ≤ 0 →
        (getData st dur f false now).state = st ∧
        (getData st dur f true now).state = st ∧
        (st.cache = none → (getData st dur f false now).fetched = true)) := by
  refine ⟨?_, ?_, ?_⟩
  · intro c e _ hc he hlt
    simp [getData, hc, he, hlt]
  · by_cases hdur : dur > 0 <;> simp [getData, hdur]
  · intro hdur
    have hdur2 : ¬ (dur > 0) := by omega
    refine ⟨?_, ?_, ?_⟩
    · cases hc : st.cache with
      | none => simp [getData, hc, hdur2]
      | some c =>
        cases he : st.cacheExpires with
        | none => simp [getData, hc, he, hdur2]
        | some e => by_cases hlt : now < e <;> simp [getData, hc, he, hlt, hdur2]
    · simp [getData, hdur2]
    · intro hc
      simp [getData, hc, hdur2]

/-- Witness for C2 at concrete inputs: a cache hit 50 seconds before an
expiry at 100 returns the cached value unchanged; `force_refresh` fetches;
with duration 0 and empty cache the call fetches. -/
theorem getData_cached_semantics_witness :
    getData { cache := some ⟨1, [("type", "time")], []⟩, cacheExpires := some 100 } 30
        ⟨2, [], []⟩ false 50
      = { data := ⟨1, [("type", "time")], []⟩,
          state := { cache := some ⟨1, [("type", "time")], []⟩, cacheExpires := some 100 },
          fetched := false }
    ∧ (getData { cache := some ⟨1, [("type", "time")], []⟩, cacheExpires := some 100 } 30
        ⟨2, [], []⟩ true 50).fetched = true
    ∧ (getData {} 0 ⟨2, [], []⟩ false 50).fetched = true :=
  ⟨(getData_cached_semantics _ 30 _ 50).1 _ _ (by decide) rfl rfl (by decide),
   (getData_cached_semantics _ 30 _ 50).2.1,
   ((getData_cached_semantics {} 0 ⟨2, [], []⟩ 50).2.2 (by decide)).2.2 rfl⟩

/-! ### Claim C10 — `force_refresh` replaces the cache entry -/

/-- Claim C10: with a positive cache duration, `get_data(force_refresh=True)`
fetches, stores the freshly fetched value with expiry `now + duration`, and
an immediately following `get_data(force_refresh=False)` call before that
expiry returns the post-refresh object without fetching. -/
theorem getData_force_refresh_updates (st : ProviderState) (dur : Int)
    (f f2 : DisplayData) (now now2 : Int) (hdur : 0 < dur) :
    (getData st dur f true now).fetched = true ∧
    (getData st dur f true now).data = f ∧
    (getData st dur f true now).state.cache = some f ∧
    (getData st dur f true now).state.cacheExpires = some (now + dur) ∧
    (now2 < now + dur →
      getData (getData st dur f true now).state dur f2 false now2
        = { data := f, state := (getData st dur f true now).state, fetched := false }) := by
  have h : getData st dur f true now
      = { data := f,
          state := { cache := some f, cacheExpires := some (now + dur) },
          fetched := true } := by
    simp [getData, hdur]
  refine ⟨by rw [h], by rw [h], by rw [h], by rw [h], ?_⟩
  intro h2
  rw [h]
  simp [getData, h2]

/-- Witness for C10 at concrete inputs: a forced refresh at 50 with duration
30 stores the new value with expiry 80, and a plain call at 60 returns it
from cache. -/
theorem getData_force_refresh_updates_witness :
    (getData { cache := some ⟨1, [], []⟩, cacheExpires := some 100 } 30 ⟨2, [], []⟩ true 50).state.cache
      = some ⟨2, [], []⟩
    ∧ getData (getData { cache := some ⟨1, [], []⟩, cacheExpires := some 100 } 30
          ⟨2, [], []⟩ true 50).state 30 ⟨3, [], []⟩ false 60
      = { data := ⟨2, [], []⟩,
          state := (getData { cache := some ⟨1, [], []⟩, cacheExpires := some 100 } 30
            ⟨2, [], []⟩ true 50).state,
          fetched := false } :=
  ⟨(getData_force_refresh_updates _ 30 _ ⟨3, [], []⟩ 50 60 (by decide)).2.2.1,
   (getData_force_refresh_updates _ 30 _ ⟨3, [], []⟩ 50 60 (by decide)).2.2.2.2 (by decide)⟩

/-! ### Claim C3 — first-match window selection -/

/-- Claim C3: for every configured rotation list, clock time and calendar
state, `_get_active_rotation` returns the first rotation in configured order
whose time window contains the current time and whose conditions evaluate
true (`rotationActive`), and the fallback rotation when none does. -/
theorem getActiveRotation_first_match (cal : CalendarState) (current_minutes : Nat)
    (fallback : Rotation) (rots : List Rotation) :
    getActiveRotation cal current_minutes fallback rots
      = (rots.find? (fun r => rotationActive r current_minutes cal)).getD fallback := by
  induction rots with
  | nil => rfl
  | cons r rest ih =>
    cases h1 : isTruthyStr r.time_window.start <;>
      cases h2 : isTruthyStr r.time_window.«end» <;>
        cases h3 : isTimeInWindow current_minutes (r.time_window.start.getD "")
            (r.time_window.«end».getD "") <;>
          cases h4 : checkRotationConditions r cal <;>
            simp [getActiveRotation, rotationActive, List.find?_cons, h1, h2, h3, h4, ih]

/-! ### Claim C4 — window filter, ordering and `minutes_until` -/

/-- Claim C4: every record returned by `get_merged_arrivals` has its arrival
time in the closed interval from `now` to `now + window_minutes`; the list
is sorted ascending by arrival time; and each `minutes_until` is the floor
of the time difference in minutes clamped to a minimum of 0, hence never
negative. -/
theorem getMergedArrivals_window_sorted (now window_minutes : Int)
    (scheduled : List Arrival) (realtime : List RTArrival)
    (tripInfo : String → Option TripInfo) :
    (∀ a ∈ getMergedArrivals now window_minutes scheduled realtime tripInfo,
        now ≤ a.arrival_time ∧ a.arrival_time ≤ now + window_minutes * 60 ∧
        a.minutes_until = max 0 (Int.fdiv (a.arrival_time - now) 60) ∧
        0 ≤ a.minutes_until)
    ∧ List.Pairwise (fun a b => a.arrival_time ≤ b.arrival_time)
        (getMergedArrivals now window_minutes scheduled realtime tripInfo) := by
  constructor
  · intro a ha
    simp only [getMergedArrivals, List.mem_map] at ha
    obtain ⟨b, hb, rfl⟩ := ha
    rw [List.mem_insertionSort, List.mem_filter] at hb
    obtain ⟨_, hcond⟩ := hb
    simp only [Bool.and_eq_true, decide_eq_true_eq] at hcond
    obtain ⟨h1, h2⟩ := hcond
    refine ⟨h1, h2, ?_, le_max_left _ _⟩
    show max 0 (Int.tdiv (b.arrival_time - now) 60)
        = max 0 (Int.fdiv (b.arrival_time - now) 60)
    rw [Int.fdiv_eq_tdiv (by omega) (by norm_num)]
  · simp only [getMergedArrivals]
    exact List.Pairwise.map _ (fun a b h => h) (List.sorted_insertionSort arrivalLe _)

/-- Witness for C4 at concrete inputs: the single merged record of a
one-arrival schedule (arrival 120 seconds after `now = 0`, window 10
minutes) satisfies the bounds and has `minutes_until = 2`. -/
theorem getMergedArrivals_window_sorted_witness :
    (0 : Int) ≤ (⟨"61", "61", "t1", "IB", "Downtown", 120, "SC", 2⟩ : Arrival).arrival_time
    ∧ (⟨"61", "61", "t1", "IB", "Downtown", 120, "SC", 2⟩ : Arrival).arrival_time ≤ 0 + 10 * 60
    ∧ (⟨"61", "61", "t1", "IB", "Downtown", 120, "SC", 2⟩ : Arrival).minutes_until
        = max 0 (Int.fdiv ((⟨"61", "61", "t1", "IB", "Downtown", 120, "SC", 2⟩ : Arrival).arrival_time - 0) 60)
    ∧ (0 : Int) ≤ (⟨"61", "61", "t1", "IB", "Downtown", 120, "SC", 2⟩ : Arrival).minutes_until :=
  (getMergedArrivals_window_sorted 0 10 [⟨"61", "61", "t1", "IB", "Downtown", 120, "SC", 0⟩]
      [] (fun _ => none)).1 ⟨"61", "61", "t1", "IB", "Downtown", 120, "SC", 2⟩ (by decide)

/-! ### Claim C5 — a failing provider never halts the rotation -/

/-- Claim C5: a raised fetch-or-render exception in `_display_provider` is
caught and answered with failure after the fixed 2-second backoff; the
simple-rotation loop processes every entry of every cycle whatever the
per-provider outcomes are (so its cycle count is never cut short by a
failure), the time-windowed per-rotation loop with no pending window switch
likewise processes every entry, and ten cycles over a provider that always
raises complete with ten caught failures. -/
theorem providerFailure_never_halts :
    (∀ e : String, displayProvider true (Except.error e)
        = { success := false, backoffSeconds := 2 })
    ∧ (∀ (initialized : String → Bool) (behavior : String → Except String DisplayData)
        (entries : List String) (n : Nat),
        (runSimpleCycles initialized behavior entries n).length = n * entries.length)
    ∧ (∀ (initialized : String → Bool) (behavior : String → Except String DisplayData)
        (entries : List String) (i : Nat),
        runRotationTW (fun _ => false) initialized behavior entries i
          = runRotationPass initialized behavior entries)
    ∧ runSimpleCycles (fun _ => true) (fun _ => Except.error "boom") ["failing"] 10
        = List.replicate 10 { success := false, backoffSeconds := 2 } := by
  refine ⟨fun e => rfl, ?_, ?_, by decide⟩
  · intro initialized behavior entries n
    induction n with
    | zero => simp [runSimpleCycles]
    | succ n ih =>
      simp only [runSimpleCycles, List.length_append, ih, runRotationPass, List.length_map]
      ring
  · intro initialized behavior entries
    induction entries with
    | nil => intro i; rfl
    | cons a rest ih =>
      intro i
      simp only [runRotationTW, if_neg (by simp : ¬ false = true), runRotationPass,
        List.map_cons]
      exact congrArg _ (ih (i + 1))

/-! ### Claim C6 — `date_range` semantics with wraparound -/

/-- Claim C6: a configured `date_range` `[start, end]` evaluates true iff
`start <= today <= end` (lexicographically) when `start <= end`, and iff
`today >= start` or `today <= end` when `start > end` (wraparound); for the
wraparound range `12-20 .. 01-10`, `should_run` is true on `12-25` and on
`01-05` and false on `06-15`. -/
theorem dateRange_semantics :
    (∀ (s e : String) (cal : CalendarState) (cs : ConditionSet),
        cs.date_range = some [s, e] →
        (pyStrLe s e = true →
          (checkDateRange cs cal = some true ↔
            (pyStrLe s cal.today = true ∧ pyStrLe cal.today e = true))) ∧
        (pyStrLe s e = false →
          (checkDateRange cs cal = some true ↔
            (pyStrLe s cal.today = true ∨ pyStrLe cal.today e = true))))
    ∧ shouldRun { date_range := some ["12-20", "01-10"] }
        { today := "12-25", pyWeekday := 3, month := 12 } = true
    ∧ shouldRun { date_range := some ["12-20", "01-10"] }
        { today := "01-05", pyWeekday := 0, month := 1 } = true
    ∧ shouldRun { date_range := some ["12-20", "01-10"] }
        { today := "06-15", pyWeekday := 0, month := 6 } = false := by
  refine ⟨?_, by decide, by decide, by decide⟩
  intro s e cal cs h
  constructor
  · intro hle
    simp [checkDateRange, h, hle]
  · intro hgt
    simp [checkDateRange, h, hgt]

/-- Witness for C6 at concrete inputs: the wraparound branch applied to the
range `12-20 .. 01-10` on `12-25`. -/
theorem dateRange_semantics_witness :
    checkDateRange { date_range := some ["12-20", "01-10"] }
        { today := "12-25", pyWeekday := 3, month := 12 } = some true ↔
      (pyStrLe "12-20" "12-25" = true ∨ pyStrLe "12-25" "01-10" = true) :=
  (dateRange_semantics.1 "12-20" "01-10"
      { today := "12-25", pyWeekday := 3, month := 12 }
      { date_range := some ["12-20", "01-10"] } rfl).2 (by decide)

/-! ### Claim C7 — time-window membership with midnight wraparound -/

/-- Claim C7: a window whose parsed start exceeds its parsed end is active
iff `now >= start` or `now < end`; a window with `start <= end` is active
iff `start <= now < end`; the window `21:00 - 06:00` is active at `23:30`
(minute 1410) and at `05:00` (minute 300) and inactive at `12:00`
(minute 720). -/
theorem timeWindow_wraparound :
    (∀ (cur : Nat) (s e : String), parseTime e < parseTime s →
        (isTimeInWindow cur s e = true ↔ (parseTime s ≤ cur ∨ cur < parseTime e)))
    ∧ (∀ (cur : Nat) (s e : String), parseTime s ≤ parseTime e →
        (isTimeInWindow cur s e = true ↔ (parseTime s ≤ cur ∧ cur < parseTime e)))
    ∧ isTimeInWindow 1410 "21:00" "06:00" = true
    ∧ isTimeInWindow 300 "21:00" "06:00" = true
    ∧ isTimeInWindow 720 "21:00" "06:00" = false := by
  refine ⟨?_, ?_, by decide, by decide, by decide⟩
  · intro cur s e h
    have h2 : ¬ (parseTime s ≤ parseTime e) := by omega
    simp [isTimeInWindow, h2, ge_iff_le]
  · intro cur s e h
    simp [isTimeInWindow, h]

/-- Witness for C7 at concrete inputs: the wraparound branch applied to the
window `21:00 - 06:00` at minute 1410. -/
theorem timeWindow_wraparound_witness :
    isTimeInWindow 1410 "21:00" "06:00" = true ↔
      (parseTime "21:00" ≤ 1410 ∨ 1410 < parseTime "06:00") :=
  timeWindow_wraparound.1 1410 "21:00" "06:00" (by decide)

/-! ### Claim C8 — unparseable time strings (corrected)

The claim says a window entry carrying an unparseable time string is
skipped by the active-window selection and never matches.  In the code,
`_parse_time` logs the error but returns `0`, so the offending bound is
treated as `00:00` and the entry stays in the selection: a window with an
unparseable start and end `08:00` matches every time before `08:00`.
-/

/-- Counterexample to C8 as stated: a rotation whose `time_window.start` is
the unparseable string `"banana"` (and end `"08:00"`) is returned by the
active-window selection at 03:00 (minute 180) instead of being skipped in
favour of the fallback. -/
theorem unparseableWindow_not_skipped :
    getActiveRotation { today := "01-01", pyWeekday := 0, month := 1 } 180
        { name := "fallback" }
        [{ name := "bad", time_window := { start := some "banana", «end» := some "08:00" } }]
      = { name := "bad", time_window := { start := some "banana", «end» := some "08:00" } }
    ∧ ({ name := "bad", time_window := { start := some "banana", «end» := some "08:00" } } : Rotation)
        ≠ ({ name := "fallback" } : Rotation)
    ∧ parseTimeOpt "banana" = none := by decide

/-- Claim C8 as amended: an unparseable time string is logged and parsed as
`0` (midnight) rather than causing the entry to be skipped; a window whose
start does not parse is therefore evaluated as starting at `00:00` and
matches exactly the times before its parsed end, while the remaining
windows are evaluated normally. -/
theorem parseTime_error_defaults_to_midnight (s : String)
    (h : parseTimeOpt s = none) :
    parseTime s = 0 ∧
    (∀ (cur : Nat) (e : String), isTimeInWindow cur s e = decide (cur < parseTime e)) := by
  have h0 : parseTime s = 0 := by simp [parseTime, h]
  refine ⟨h0, ?_⟩
  intro cur e
  simp [isTimeInWindow, h0]

/-- Witness for the amended C8 at concrete inputs: `"banana"` parses to `0`
and a `banana - 08:00` window matches exactly the minutes before `08:00`. -/
theorem parseTime_error_defaults_to_midnight_witness :
    parseTime "banana" = 0 ∧
    isTimeInWindow 180 "banana" "08:00" = decide (180 < parseTime "08:00") :=
  ⟨(parseTime_error_defaults_to_midnight "banana" (by decide)).1,
   (parseTime_error_defaults_to_midnight "banana" (by decide)).2 180 "08:00"⟩

/-! ### Claim C9 — expired pickle files (corrected)

The claim says every expired cache file is deleted before the lookup result
is decided.  `_get_pickle_path` instead returns as soon as it encounters an
unexpired file, so expired files later in the directory listing survive.
-/

/-- Counterexample to C9 as stated: with the listing holding an unexpired
file (expiry 100) followed by an expired one (expiry 5), the lookup at time
50 returns the first file while the expired file is still present in the
directory afterwards. -/
theorem expiredFileSurvives_counterexample :
    getPicklePath 50 [{ expiry := some 100 }, { expiry := some 5 }]
      = (some { expiry := some 100 }, [{ expiry := some 100 }, { expiry := some 5 }])
    ∧ ({ expiry := some 5 } : CacheFile)
        ∈ (getPicklePath 50 [{ expiry := some 100 }, { expiry := some 5 }]).2
    ∧ ((5 : Int) < 50) := by decide

/-- Claim C9 as amended: the lookup returns the first unexpired cache file
in listing order, deleting the expired files encountered before it but
leaving files after it untouched; only when no unexpired file exists (in
which case every parseable file was expired and has been deleted, so only
unparseable filenames remain) does the lookup count as a miss. -/
theorem getPicklePath_first_unexpired (now : Int) (files : List CacheFile) :
    (getPicklePath now files).1
      = files.find? (fun f =>
          match f.expiry with
          | some e => decide (now < e)
          | none => false)
    ∧ ((getPicklePath now files).1 = none →
        ∀ f ∈ (getPicklePath now files).2, f.expiry = none)
    ∧ ((getPicklePath now files).1 = none ↔
        ∀ f ∈ files, ¬ ∃ e, f.expiry = some e ∧ now < e) := by
  have main : (getPicklePath now files).1
      = files.find? (fun f =>
          match f.expiry with
          | some e => decide (now < e)
          | none => false)
    ∧ ((getPicklePath now files).1 = none →
        ∀ f ∈ (getPicklePath now files).2, f.expiry = none) := by
    induction files with
    | nil => exact ⟨rfl, fun _ f hf => absurd hf (List.not_mem_nil f)⟩
    | cons f rest ih =>
      cases hx : f.expiry with
      | none =>
        refine ⟨?_, ?_⟩
        · simp only [getPicklePath, hx, List.find?_cons]
          exact ih.1
        · intro hnone g hg
          simp only [getPicklePath, hx] at hnone hg
          rcases List.mem_cons.mp hg with rfl | hg
          · exact hx
          · exact ih.2 hnone g hg
      | some e =>
        by_cases hlt : now < e
        · refine ⟨?_, ?_⟩
          · simp only [getPicklePath, hx, if_pos hlt, List.find?_cons]
            rw [decide_eq_true hlt]
          · intro hnone
            simp only [getPicklePath, hx, if_pos hlt] at hnone
            exact absurd hnone (by simp)
        · refine ⟨?_, ?_⟩
          · simp only [getPicklePath, hx, if_neg hlt, List.find?_cons]
            rw [decide_eq_false hlt]
            exact ih.1
          · intro hnone g hg
            simp only [getPicklePath, hx, if_neg hlt] at hnone hg
            exact ih.2 hnone g hg
  refine ⟨main.1, main.2, ?_⟩
  rw [main.1, List.find?_eq_none]
  constructor
  · intro h f hf he
    have := h f hf
    obtain ⟨e, he1, he2⟩ := he
    rw [he1] at this
    exact absurd (decide_eq_true he2) this
  · intro h f hf
    cases hx : f.expiry with
    | none => simp
    | some e =>
      simp only [decide_eq_true_eq]
      intro hlt
      exact h f hf ⟨e, hx, hlt⟩

/-- Witness for the amended C9 at concrete inputs: the lookup result equals
the first-unexpired `find?`, and a miss leaves only unparseable filenames
behind. -/
theorem getPicklePath_first_unexpired_witness :
    (getPicklePath 50 [{ expiry := some 100 }, { expiry := some 5 }]).1
      = List.find? (fun f =>
          match f.expiry with
          | some e => decide ((50 : Int) < e)
          | none => false) [{ expiry := some 100 }, { expiry := some 5 }]
    ∧ ({ expiry := none } : CacheFile).expiry = none :=
  ⟨(getPicklePath_first_unexpired 50 [{ expiry := some 100 }, { expiry := some 5 }]).1,
   (getPicklePath_first_unexpired 50 [{ expiry := some 5 }, { expiry := none }]).2.1 rfl
     { expiry := none } (by decide)⟩

end TrixHub
